import Mathlib

/-!
Verification development for the king-xer-pair repository: a pairing-code
server for a messaging-protocol client, present in the repository as five
near-duplicate variants (src/server.js documents 1 and 2, and
src/unnamed/part_000 .. part_003).  The definitions below are shallow
embeddings of the JavaScript source; theorems settle the specification
claims against them.
-/

namespace KingXer

/-! ## In-memory storage adapter (src/server.js lines 33-43)

The adapter is a JavaScript object `virtualFiles` mapping file names to
stored blobs, wrapped in `readFile` / `writeFile` / `removeFile` /
`fileExists` / `readDir` / `clear`.  We model the object as an
insertion-ordered association list with unique keys (JavaScript object
semantics), and blobs as strings (the data written through this adapter is
JSON text). -/

namespace ServerJs

/-- The virtualFiles object (src/server.js line 33): file name to blob. -/
abbrev VFiles := List (String × String)

/-- JavaScript property lookup virtualFiles[file]: the stored value, or
undefined (none) when the key is absent.  First match, as in a JS object
where keys are unique. -/
def lookupKey (m : VFiles) (k : String) : Option String :=
  (m.find? (fun p => p.1 = k)).map (fun p => p.2)

/-- writeFile (src/server.js line 38): virtualFiles[file] = data.  JS
assignment updates an existing key in place, otherwise appends. -/
def writeFile (m : VFiles) (file data : String) : VFiles :=
  if (m.find? (fun p => p.1 = file)).isSome then
    m.map (fun p => if p.1 = file then (file, data) else p)
  else
    m ++ [(file, data)]

/-- removeFile (src/server.js line 39): delete virtualFiles[file].  Deleting
an absent property is a no-op that succeeds. -/
def removeFile (m : VFiles) (file : String) : VFiles :=
  m.filter (fun p => ¬ p.1 = file)

/-- A JavaScript string is falsy exactly when it is empty. -/
def truthyStr (s : String) : Bool := s ≠ ""

/-- readFile (src/server.js line 37): virtualFiles[file] || null.  A falsy
stored value (the empty string) and an absent key both yield null, which we
model as none. -/
def readFile (m : VFiles) (file : String) : Option String :=
  match lookupKey m file with
  | some v => if truthyStr v then some v else none
  | none => none

/-- fileExists (src/server.js line 40): virtualFiles[file] !== undefined. -/
def fileExists (m : VFiles) (file : String) : Bool :=
  (lookupKey m file).isSome

/-- readDir (src/server.js line 41): Object.keys(virtualFiles). -/
def readDir (m : VFiles) : List String := m.map (fun p => p.1)

/-- clear (src/server.js line 42): delete every key. -/
def clearFiles (_m : VFiles) : VFiles := []

/-! ## Phone-number normalization (src/server.js line 60)

phoneNumber.replace of the global regular expression matching every
character outside 0-9 with the empty string: keep exactly the characters in
the range 0-9, in order. -/

/-- cleanNumber (src/server.js line 60): strip every character outside the
regular-expression class 0-9. -/
def cleanNumber (phoneNumber : String) : String :=
  String.mk (phoneNumber.data.filter (fun c => '0' ≤ c && c ≤ '9'))

/-! ## Pairing-code formatting (src/server.js line 66)

code?.match(slash dot-quantified-1-to-4 slash g)?.join(minus).  The
JavaScript dot matches any character except a line terminator; the global
match walks the string, at each position greedily matching up to four
dot-characters (at least one), otherwise advancing one character; it
returns null when there is no match at all, in which case the optional
chaining makes the joined result undefined rather than a string. -/

/-- Whether the JavaScript regular-expression dot (no s flag) matches a
character: anything but a line terminator. -/
def jsDot (c : Char) : Bool :=
  !(c == '\n' || c == '\r' || c == '\u2028' || c == '\u2029')

/-- One left-to-right pass of the global match of dot-quantified-1-to-4:
cur holds the group currently being matched, in reverse (greedy, so a group
closes as soon as it reaches four characters); a line terminator closes any
open group without being part of one. -/
def matchGo : List Char → List Char → List (List Char)
  | cur, [] => if cur.isEmpty then [] else [cur.reverse]
  | cur, c :: cs =>
    if jsDot c then
      if cur.length == 3 then (c :: cur).reverse :: matchGo [] cs
      else matchGo (c :: cur) cs
    else
      if cur.isEmpty then matchGo [] cs
      else cur.reverse :: matchGo [] cs

/-- The list of matches of the global regular expression dot-quantified
1-to-4 over a character list: at each position, a maximal group of up to
four dot-characters; positions holding a line terminator are skipped. -/
def matchChunks (l : List Char) : List (List Char) :=
  matchGo [] l

/-- formatCode (src/server.js line 66): code?.match(...)?.join(minus);
none models the null/undefined result when the match finds no group. -/
def formatCode (code : String) : Option String :=
  match matchChunks code.data with
  | [] => none
  | gs => some (String.intercalate "-" (gs.map (fun g => String.mk g)))

end ServerJs

namespace Spec

/-- Modelled from the spec text of section 4.3: split a character list into
consecutive groups of four characters (the last group may be shorter). -/
def specChunks (l : List Char) : List (List Char) :=
  (List.range ((l.length + 3) / 4)).map (fun i => (l.drop (4 * i)).take 4)

/-- Modelled from the spec text: groups of four characters joined by the
separator. -/
def specFormatCode (s : String) : String :=
  String.intercalate "-" ((specChunks s.data).map (fun g => String.mk g))

end Spec

/-! ## Durable archive destinations

Both the blob archive (put of the vercel blob package) and the bucket
archive (supabase storage upload) store an opaque blob under a path; we
model a destination as a partial map from path to blob. -/

/-- A durable archive destination: path to stored blob. -/
abbrev BlobStore := String → Option String

/-- Store a blob under a path, overwriting any previous blob there. -/
def putObject (store : BlobStore) (path content : String) : BlobStore :=
  fun p => if p = path then some content else store p

namespace ServerJs

/-! ## The HTTP response channel

An Express response object: headersSent records whether the response has
been used; writes records every write attempted through it. -/

/-- The three response bodies written by src/server.js: the 400 for a
missing number (line 140), the pairing-code success body (line 64), and the
500 failure body (line 151). -/
inductive ResponseWrite
  | badRequest
  | pairSuccess (code : Option String)
  | serverError
deriving DecidableEq, Repr

/-- An Express response object, reduced to what the source observes of it. -/
structure Res where
  headersSent : Bool
  writes : List ResponseWrite
deriving DecidableEq, Repr

/-- The response object of a request on which nothing has been written. -/
def freshRes : Res := ⟨false, []⟩

/-- An unguarded write to the response channel (res.json, res.status(...)
followed by .json): attempted unconditionally, and it marks the headers as
sent. -/
def resWrite (w : ResponseWrite) (r : Res) : Res :=
  ⟨true, r.writes ++ [w]⟩

/-! ## The connector (src/server.js lines 31-124)

The awaited external calls are modelled by an environment fixing each
call's outcome; a rejected await propagates as a thrown error to the
caller. -/

/-- Outcomes of the external calls awaited by one connector invocation. -/
structure ConnectorEnv where
  phoneNumber : String
  authStateOk : Bool
  socketOk : Bool
  registered : Bool
  pairingCode : Option String
deriving DecidableEq, Repr

/-- The two event subscriptions the connector installs (lines 72 and 74). -/
inductive HandlerName
  | credsUpdate
  | connectionUpdate
deriving DecidableEq, Repr

/-- What one connector invocation did: the final response state, whether it
threw, whether requestPairingCode was invoked and with which number, and
which event handlers were installed. -/
structure ConnectorResult where
  res : Res
  threw : Bool
  pairingRequested : Bool
  requestedNumber : Option String
  handlers : List HandlerName
deriving DecidableEq, Repr

/-- connector (src/server.js lines 31-124): build the auth state (line 45),
build the socket (line 47); if the loaded creds are not registered
(line 58), request a pairing code for the digit-stripped number (lines
60-61) and, when the response channel is still unused (line 63), write the
success body with the formatted code (lines 64-68); finally install the
creds.update and connection.update handlers (lines 72-74).  A rejection of
any awaited call propagates to the caller before the handlers are
installed. -/
def connector (env : ConnectorEnv) (r : Res) : ConnectorResult :=
  if ¬ env.authStateOk then ⟨r, true, false, none, []⟩
  else if ¬ env.socketOk then ⟨r, true, false, none, []⟩
  else if ¬ env.registered then
    match env.pairingCode with
    | none => ⟨r, true, true, some (cleanNumber env.phoneNumber), []⟩
    | some code =>
      let r1 := if ¬ r.headersSent then resWrite (ResponseWrite.pairSuccess (formatCode code)) r else r
      ⟨r1, false, true, some (cleanNumber env.phoneNumber),
        [HandlerName.credsUpdate, HandlerName.connectionUpdate]⟩
  else
    ⟨r, false, false, none, [HandlerName.credsUpdate, HandlerName.connectionUpdate]⟩

/-- the /pair endpoint handler (src/server.js lines 137-158): a missing
number is answered 400 (lines 139-144); otherwise the guard is acquired,
the connector runs on the request's fresh response object, a thrown error
is answered 500 without checking headersSent (lines 149-154), and the
finally block releases the guard (line 156). -/
def pairHandler (hasNumber : Bool) (env : ConnectorEnv) : ConnectorResult :=
  if ¬ hasNumber then ⟨resWrite ResponseWrite.badRequest freshRes, false, false, none, []⟩
  else
    let r := connector env freshRes
    if r.threw then { r with res := resWrite ResponseWrite.serverError r.res, threw := false }
    else r

/-! ## The upload loop of the open branch (src/server.js lines 83-99) -/

/-- Outcomes of the two archive calls, per file name: whether the blob put
(line 88) resolves, and the error field returned by the bucket upload
(lines 94-96). -/
structure UploadEnv where
  vercelOk : String → Bool
  supabaseErr : String → Option String

/-- The observable state threaded through the loop: which files an upload
was attempted for, and the two archive destinations. -/
structure LoopState where
  attempted : List String
  blob : BlobStore
  bucket : BlobStore

/-- the upload loop (src/server.js lines 83-99): for each file of the
adapter, read it and put it to the blob archive under sessionId/file
(line 88), then upload it to the bucket (line 94); a rejected put throws,
and a returned bucket error is rethrown by line 98 — either aborts the
loop, skipping every remaining file. -/
def uploadFiles (env : UploadEnv) (sessionId : String) :
    List (String × String) → LoopState → LoopState × Option String
  | [], st => (st, none)
  | (file, content) :: rest, st =>
    let st1 : LoopState := ⟨st.attempted ++ [file], st.blob, st.bucket⟩
    if ¬ env.vercelOk file then (st1, some "blob put rejected")
    else
      let st2 : LoopState :=
        ⟨st1.attempted, putObject st1.blob (sessionId ++ "/" ++ file) content, st1.bucket⟩
      match env.supabaseErr file with
      | some e => (st2, some e)
      | none =>
        uploadFiles env sessionId rest
          ⟨st2.attempted, st2.blob, putObject st2.bucket (sessionId ++ "/" ++ file) content⟩

/-! ## uploadSessionToBlob (src/server.js lines 196-215, second document) -/

/-- Outcome of each blob put, per destination path. -/
structure BlobPutEnv where
  putOk : String → Bool

/-- What uploadSessionToBlob returns on success (line 210). -/
structure UploadOutcome where
  sessionId : String
  urls : List String

/-- the loop of uploadSessionToBlob (lines 202-208): for each entry of the
sessionFiles object, put the content under sessionId/fileName and collect
the resulting url; a rejected put is caught, logged and rethrown (lines
211-213), aborting the whole call. -/
def uploadEntriesGo (env : BlobPutEnv) (sessionId : String) :
    List (String × String) → BlobStore → List String → Except Unit (BlobStore × List String)
  | [], store, urls => Except.ok (store, urls)
  | (fileName, fileContent) :: rest, store, urls =>
    if env.putOk (sessionId ++ "/" ++ fileName) then
      uploadEntriesGo env sessionId rest
        (putObject store (sessionId ++ "/" ++ fileName) fileContent)
        (urls ++ [sessionId ++ "/" ++ fileName])
    else Except.error ()

/-- uploadSessionToBlob (src/server.js lines 196-215): mint the session id
from the current clock value (line 198), upload every entry, and return the
minted id together with the uploaded urls (line 210). -/
def uploadSessionToBlob (env : BlobPutEnv) (now : Nat) (sessionFiles : List (String × String))
    (store : BlobStore) : Except Unit (BlobStore × UploadOutcome) :=
  let sessionId := toString now
  match uploadEntriesGo env sessionId sessionFiles store [] with
  | Except.ok (store2, urls) => Except.ok (store2, ⟨sessionId, urls⟩)
  | Except.error e => Except.error e

/-! ## Disconnect handling (src/server.js lines 126-134) -/

/-- The disconnect reason codes the close branches compare against; other
stands for every remaining status code, including an absent one. -/
inductive DisconnectReason
  | loggedOut
  | connectionLost
  | connectionClosed
  | restartRequired
  | other
deriving DecidableEq, Repr, Fintype

/-- What handleDisconnect does: one connector() re-invocation without the
guard (line 129), or session.end() (line 132). -/
inductive DisconnectAction
  | reconnect
  | endSession
deriving DecidableEq, Repr

/-- handleDisconnect (src/server.js lines 126-134): a reason among
connectionLost, connectionClosed and restartRequired re-invokes the
connector; every other reason ends the session. -/
def handleDisconnect (reason : DisconnectReason) : DisconnectAction :=
  if reason = DisconnectReason.connectionLost ∨ reason = DisconnectReason.connectionClosed ∨
      reason = DisconnectReason.restartRequired then
    DisconnectAction.reconnect
  else
    DisconnectAction.endSession

/-- How many times an action re-invokes the connector flow. -/
def reinvocations : DisconnectAction → Nat
  | DisconnectAction.reconnect => 1
  | DisconnectAction.endSession => 0

end ServerJs

namespace Part000

/-- What the connection close branch of part_000 does for one close event. -/
structure CloseResult where
  logLine : String
  sessionTornDown : Bool
  dirCleaned : Bool
  reinvocationCount : Nat
deriving DecidableEq, Repr

/-- the close branch of setupConnectionHandlers (part_000 lines 189-199):
a loggedOut reason logs, tears the handle down (cleanup, lines 204-209) and
removes the session directory; every other reason logs a different line and
performs exactly the same teardown — neither branch re-invokes the
pairing flow. -/
def closeBranch (reason : ServerJs.DisconnectReason) : CloseResult :=
  if reason = ServerJs.DisconnectReason.loggedOut then
    ⟨"Logged out, please restart the server", true, true, 0⟩
  else
    ⟨"Connection lost, cleaning up", true, true, 0⟩

/-- the loop of SessionManager.uploadSession (part_000 lines 84-93): for
each file of the session directory, upload its content to the bucket under
sessionId/file; a returned error is thrown (line 92), aborting the loop. -/
def uploadSessionGo (env : String → Option String) (sessionId : String) :
    List (String × String) → BlobStore → Except String BlobStore
  | [], bucket => Except.ok bucket
  | (file, content) :: rest, bucket =>
    match env file with
    | some err => Except.error err
    | none =>
      uploadSessionGo env sessionId rest (putObject bucket (sessionId ++ "/" ++ file) content)

/-- SessionManager.uploadSession (part_000 lines 79-100): list the session
directory, mint a random session id (line 82), upload every file, and
return the minted id (line 95). -/
def uploadSession (env : String → Option String) (sessionId : String)
    (files : List (String × String)) (bucket : BlobStore) : Except String (BlobStore × String) :=
  match uploadSessionGo env sessionId files bucket with
  | Except.ok b => Except.ok (b, sessionId)
  | Except.error e => Except.error e

end Part000

namespace Part001

/-- Outcomes of the external calls awaited by one part_001 connector
invocation: the setup chain (mkdir, auth state, protocol version, socket,
lines 102-119), the registered flag (line 123) and the pairing-code request
(line 127). -/
structure Env where
  setupOk : Bool
  registered : Bool
  pairingCode : Option String
deriving DecidableEq, Repr

/-- A guarded response write: every write in part_001 checks
res.headersSent first (lines 128, 133, 194 and 223). -/
def guardedWrite (w : ServerJs.ResponseWrite) (r : ServerJs.Res) : ServerJs.Res :=
  if ¬ r.headersSent then ServerJs.resWrite w r else r

/-- The response-channel effect of one part_001 connector invocation
(lines 98-206): a setup failure answers 500 guarded (lines 194-200); an
unregistered bundle requests a code and answers guarded with the formatted
code (lines 128-130) or, on rejection, guarded with 500 (lines 133-138); a
registered bundle writes nothing.  The reconnect branch (line 188)
re-invokes the connector with the same response object, modelled by folding
this function. -/
def connectorRes (env : Env) (r : ServerJs.Res) : ServerJs.Res :=
  if ¬ env.setupOk then guardedWrite ServerJs.ResponseWrite.serverError r
  else if ¬ env.registered then
    match env.pairingCode with
    | some code => guardedWrite (ServerJs.ResponseWrite.pairSuccess (ServerJs.formatCode code)) r
    | none => guardedWrite ServerJs.ResponseWrite.serverError r
  else r

/-- What one part_001 close branch does for one close event. -/
structure CloseResult001 where
  sessionEnded : Bool
  dirCleaned : Bool
  reinvocationCount : Nat
deriving DecidableEq, Repr

/-- the close branch of part_001 (lines 176-189): loggedOut ends the
session and removes the session directory (lines 178-185); every other
reason schedules exactly one connector re-invocation (line 188). -/
def closeBranch001 (reason : ServerJs.DisconnectReason) : CloseResult001 :=
  if reason = ServerJs.DisconnectReason.loggedOut then ⟨true, true, 0⟩ else ⟨false, false, 1⟩

/-- The observable state of one part_001 uploadSession run. -/
structure UploadRun where
  attempted : List String
  failed : List String
  bucket : BlobStore

/-- the loop of uploadSession (part_001 lines 64-88): each file is uploaded
inside its own try/catch — a returned error is logged (line 81) and the
loop continues with the next file. -/
def uploadLoop001 (env : String → Option String) (sessionId : String) :
    List (String × String) → UploadRun → UploadRun
  | [], run => run
  | (file, content) :: rest, run =>
    let run1 : UploadRun :=
      match env file with
      | some _ => ⟨run.attempted ++ [file], run.failed ++ [file], run.bucket⟩
      | none =>
        ⟨run.attempted ++ [file], run.failed,
          putObject run.bucket (sessionId ++ "/" ++ file) content⟩
    uploadLoop001 env sessionId rest run1

/-- uploadSession (part_001 lines 50-95): a missing session directory or an
empty file list returns null (lines 52-61); otherwise every file is
attempted and the minted session id is returned (line 90) no matter how
many uploads failed. -/
def uploadSession001 (dirExists : Bool) (env : String → Option String) (sessionId : String)
    (files : List (String × String)) (bucket : BlobStore) : Option String × UploadRun :=
  if ¬ dirExists then (none, ⟨[], [], bucket⟩)
  else if files.isEmpty then (none, ⟨[], [], bucket⟩)
  else (some sessionId, uploadLoop001 env sessionId files ⟨[], [], bucket⟩)

end Part001

namespace Part002

/-- The runtime error class thrown by the modelled statement. -/
inductive JsError
  | typeErrorConstAssignment
deriving DecidableEq, Repr

/-- The state the finally block of part_002 acts on: the virtualFiles
object (line 33) and whether session.end() has been called. -/
structure SessionState where
  virtualFiles : List (String × String)
  sessionEnded : Bool
deriving DecidableEq, Repr

/-- the statement assigning a fresh empty object to virtualFiles in the
finally block (part_002 line 131): virtualFiles is declared const
(line 33), and per the ECMAScript assignment semantics an assignment to a
constant binding throws a TypeError at runtime. -/
def constReassign (_st : SessionState) : Except JsError SessionState :=
  Except.error JsError.typeErrorConstAssignment

/-- the finally block of the open branch (part_002 lines 129-133): first
the reassignment of the const virtualFiles binding, then, only if that
completed normally, session.end(). -/
def finallyBlock (st : SessionState) : Except JsError SessionState := do
  let st1 ← constReassign st
  pure ⟨st1.virtualFiles, true⟩

end Part002

namespace Flow

/-- Counting abstraction of the process: how many pairing-flow instances
are in each lifecycle phase, plus the single process-wide mutex of
src/server.js line 22.  waiting counts /pair requests blocked in
mutex.acquire (line 146); guardCritical counts requests inside
await connector(...) holding the mutex (line 148); reconCritical counts
connector() invocations spawned by handleDisconnect (line 129), which never
touch the mutex; awaitingLink counts instances whose connector call has
returned — handlers installed, response possibly sent — and whose
connection has neither opened nor closed yet; linked counts instances
running the open branch (upload, confirmation, cleanup, lines 77-118). -/
structure SysState where
  waiting : Nat
  guardCritical : Nat
  reconCritical : Nat
  awaitingLink : Nat
  linked : Nat
  closedCount : Nat
  mutexHeld : Bool
deriving DecidableEq, Repr

/-- The process state at startup: no request, mutex free. -/
def startState : SysState := ⟨0, 0, 0, 0, 0, 0, false⟩

/-- One interleaving step of the system of src/server.js.  arrive: a /pair
request with a number reaches mutex.acquire (line 146).  acquire: the mutex
is free, so one waiting request takes it and enters the connector
(line 148).  connectorReturn: the connector resolves after installing its
handlers (line 124) and the finally block releases the mutex (line 156)
while the instance keeps waiting for its connection events.
connectorThrow: the connector rejects, the catch answers 500 (line 151) and
the finally block releases the mutex.  reconnectReturn / reconnectThrow:
the same two outcomes for a connector() invocation spawned without the
mutex by handleDisconnect (line 129).  connOpen: a waiting instance
receives connection open (line 77).  openFinallyDone: the open branch ends
through its finally block — adapter cleared, session ended (lines
114-118).  closeTransientAwaiting / closeTransientLinked: a close event
with a transient reason makes handleDisconnect spawn a fresh connector()
invocation without acquiring the mutex (lines 127-129).
closeTerminalAwaiting / closeTerminalLinked: a close event with a terminal
reason ends the session (line 132). -/
inductive Step : SysState → SysState → Prop
  | arrive (s : SysState) :
      Step s { s with waiting := s.waiting + 1 }
  | acquire (s : SysState) (hm : s.mutexHeld = false) (hw : 0 < s.waiting) :
      Step s { s with waiting := s.waiting - 1, guardCritical := s.guardCritical + 1,
                      mutexHeld := true }
  | connectorReturn (s : SysState) (h : 0 < s.guardCritical) :
      Step s { s with guardCritical := s.guardCritical - 1,
                      awaitingLink := s.awaitingLink + 1, mutexHeld := false }
  | connectorThrow (s : SysState) (h : 0 < s.guardCritical) :
      Step s { s with guardCritical := s.guardCritical - 1,
                      closedCount := s.closedCount + 1, mutexHeld := false }
  | reconnectReturn (s : SysState) (h : 0 < s.reconCritical) :
      Step s { s with reconCritical := s.reconCritical - 1,
                      awaitingLink := s.awaitingLink + 1 }
  | reconnectThrow (s : SysState) (h : 0 < s.reconCritical) :
      Step s { s with reconCritical := s.reconCritical - 1,
                      closedCount := s.closedCount + 1 }
  | connOpen (s : SysState) (h : 0 < s.awaitingLink) :
      Step s { s with awaitingLink := s.awaitingLink - 1, linked := s.linked + 1 }
  | openFinallyDone (s : SysState) (h : 0 < s.linked) :
      Step s { s with linked := s.linked - 1, closedCount := s.closedCount + 1 }
  | closeTransientAwaiting (s : SysState) (h : 0 < s.awaitingLink) :
      Step s { s with awaitingLink := s.awaitingLink - 1,
                      closedCount := s.closedCount + 1,
                      reconCritical := s.reconCritical + 1 }
  | closeTransientLinked (s : SysState) (h : 0 < s.linked) :
      Step s { s with linked := s.linked - 1, closedCount := s.closedCount + 1,
                      reconCritical := s.reconCritical + 1 }
  | closeTerminalAwaiting (s : SysState) (h : 0 < s.awaitingLink) :
      Step s { s with awaitingLink := s.awaitingLink - 1,
                      closedCount := s.closedCount + 1 }
  | closeTerminalLinked (s : SysState) (h : 0 < s.linked) :
      Step s { s with linked := s.linked - 1, closedCount := s.closedCount + 1 }

/-- The states the system can reach from startup. -/
inductive Reachable : SysState → Prop
  | start : Reachable startState
  | step {s t : SysState} : Reachable s → Step s t → Reachable t

/-- Instances currently inside the claim's critical section, the
Initializing-through-Linked window: constructing (with or without the
guard), awaiting their link, or linked. -/
def inCritical (s : SysState) : Nat :=
  s.guardCritical + s.reconCritical + s.awaitingLink + s.linked

/-- A reachable state holding two instances inside the
Initializing-through-Linked window: one whose connector has returned and
which awaits its link, and a second one constructing under the
freshly-reacquired mutex. -/
def twoActiveState : SysState := ⟨0, 1, 0, 1, 0, 0, true⟩

end Flow

/-! ## Theorems -/

/-- C3: the code is wrong where the claim expects cleanup to run: on the
upload path of the part_002 variant the finally block reassigns the
const-declared virtualFiles binding, so it throws a TypeError for every
state, the adapter working state is never cleared and session.end() is
never reached. -/
theorem C3_part002_cleanup_throws :
    (∀ st : Part002.SessionState,
        Part002.finallyBlock st = Except.error Part002.JsError.typeErrorConstAssignment) ∧
    Part002.finallyBlock ⟨[("creds.json", "b1")], false⟩ =
      Except.error Part002.JsError.typeErrorConstAssignment :=
  ⟨fun _ => rfl, rfl⟩

/-- C6 counterexample: in the part_000 variant a disconnect classified as
connectionLost does not re-invoke Initializing at all — the close branch
only tears down — so the claim that it re-invokes exactly once fails. -/
theorem C6_claim_counterexample :
    (Part000.closeBranch ServerJs.DisconnectReason.connectionLost).reinvocationCount = 0 ∧
    ¬ ((Part000.closeBranch ServerJs.DisconnectReason.connectionLost).reinvocationCount = 1) := by
  decide

/-- C6 amended: a loggedOut disconnect never re-invokes Initializing in any
variant; a connectionLost disconnect re-invokes it exactly once in
src/server.js (handleDisconnect) and in part_001, but zero times in
part_000, whose close branch tears down on every reason. -/
theorem C6_disconnect_policy :
    (∀ r, ServerJs.handleDisconnect r = ServerJs.DisconnectAction.reconnect ↔
        (r = ServerJs.DisconnectReason.connectionLost ∨
          r = ServerJs.DisconnectReason.connectionClosed ∨
          r = ServerJs.DisconnectReason.restartRequired)) ∧
    ServerJs.reinvocations (ServerJs.handleDisconnect ServerJs.DisconnectReason.connectionLost)
      = 1 ∧
    ServerJs.reinvocations (ServerJs.handleDisconnect ServerJs.DisconnectReason.loggedOut) = 0 ∧
    ServerJs.handleDisconnect ServerJs.DisconnectReason.loggedOut
      = ServerJs.DisconnectAction.endSession ∧
    (∀ r, (Part000.closeBranch r).reinvocationCount = 0 ∧
        (Part000.closeBranch r).sessionTornDown = true ∧
        (Part000.closeBranch r).dirCleaned = true) ∧
    (∀ r, (Part001.closeBranch001 r).reinvocationCount =
        if r = ServerJs.DisconnectReason.loggedOut then 0 else 1) := by
  decide

/-- C8: the number handed to pairing-code issuance is the caller-supplied
string with every non-digit stripped, in order; in particular the spec's
example input normalizes to 15551234567. -/
theorem C8_normalization :
    ServerJs.cleanNumber "+1 (555) 123-4567" = "15551234567" ∧
    (∀ s : String, (ServerJs.cleanNumber s).data = s.data.filter Char.isDigit) ∧
    (∀ (env : ServerJs.ConnectorEnv) (r : ServerJs.Res),
        (ServerJs.connector env r).requestedNumber = none ∨
        (ServerJs.connector env r).requestedNumber
          = some (ServerJs.cleanNumber env.phoneNumber)) := by
  refine ⟨by decide, ?_, ?_⟩
  · intro s
    rfl
  · intro env r
    rcases env with ⟨pn, a, so, reg, pc⟩
    cases a <;> cases so <;> cases reg <;> cases pc <;>
      simp [ServerJs.connector]

/-- C10: when the loaded credential bundle is registered and construction
succeeded, the connector requests no pairing code, writes nothing to the
response channel, and installs exactly the creds.update and
connection.update handlers; the /pair request therefore gets no response
from the pairing flow. -/
theorem C10_registered_silent (env : ServerJs.ConnectorEnv)
    (hA : env.authStateOk = true) (hS : env.socketOk = true) (hR : env.registered = true) :
    ServerJs.connector env ServerJs.freshRes =
      ⟨ServerJs.freshRes, false, false, none,
        [ServerJs.HandlerName.credsUpdate, ServerJs.HandlerName.connectionUpdate]⟩ ∧
    (ServerJs.pairHandler true env).res.writes = [] ∧
    (ServerJs.pairHandler true env).pairingRequested = false := by
  simp [ServerJs.pairHandler, ServerJs.connector, hA, hS, hR, ServerJs.freshRes]

/-- C10 witness: a concrete registered environment, evaluated. -/
theorem C10_registered_silent_witness :
    (ServerJs.pairHandler true ⟨"15551234567", true, true, true, none⟩).res.writes = [] ∧
    (ServerJs.pairHandler true ⟨"15551234567", true, true, true, none⟩).pairingRequested
      = false :=
  ⟨(C10_registered_silent ⟨"15551234567", true, true, true, none⟩ rfl rfl rfl).2.1,
    (C10_registered_silent ⟨"15551234567", true, true, true, none⟩ rfl rfl rfl).2.2⟩

/-- Helper: every part_001 connector invocation preserves the response
invariant — no write yet while the headers are unsent, and at most one
write ever. -/
theorem part001_connectorRes_invariant (e : Part001.Env) (r : ServerJs.Res)
    (h1 : r.headersSent = false → r.writes = []) (h2 : r.writes.length ≤ 1) :
    ((Part001.connectorRes e r).headersSent = false → (Part001.connectorRes e r).writes = []) ∧
    (Part001.connectorRes e r).writes.length ≤ 1 := by
  rcases e with ⟨su, reg, pc⟩
  rcases r with ⟨hs, ws⟩
  cases su <;> cases reg <;> cases pc <;> cases hs <;>
    simp_all [Part001.connectorRes, Part001.guardedWrite, ServerJs.resWrite]

/-- Helper: folding any number of part_001 connector re-invocations over a
response keeps the invariant. -/
theorem part001_foldl_invariant (envs : List Part001.Env) :
    ∀ r : ServerJs.Res, (r.headersSent = false → r.writes = []) → r.writes.length ≤ 1 →
      (((envs.foldl (fun r e => Part001.connectorRes e r) r).headersSent = false →
          (envs.foldl (fun r e => Part001.connectorRes e r) r).writes = []) ∧
        (envs.foldl (fun r e => Part001.connectorRes e r) r).writes.length ≤ 1) := by
  induction envs with
  | nil => intro r h1 h2; exact ⟨h1, h2⟩
  | cons e rest ih =>
    intro r h1 h2
    have h := part001_connectorRes_invariant e r h1 h2
    simpa using ih (Part001.connectorRes e r) h.1 h.2

/-- C2: at most one response write per pairing request: the /pair handler
of src/server.js attempts at most one write on every path — success,
earlier 400, or thrown error answered 500 — and in the part_001 variant,
where a transient disconnect re-invokes the connector with the same
response object, any number of re-invocations still attempt at most one
write in total, because every write there is guarded by headersSent. -/
theorem C2_single_response :
    (∀ (hasNumber : Bool) (env : ServerJs.ConnectorEnv),
        (ServerJs.pairHandler hasNumber env).res.writes.length ≤ 1) ∧
    (∀ envs : List Part001.Env,
        (envs.foldl (fun r e => Part001.connectorRes e r) ServerJs.freshRes).writes.length
          ≤ 1) := by
  constructor
  · intro hasNumber env
    rcases env with ⟨pn, a, so, reg, pc⟩
    cases hasNumber <;> cases a <;> cases so <;> cases reg <;> cases pc <;>
      simp [ServerJs.pairHandler, ServerJs.connector, ServerJs.resWrite, ServerJs.freshRes]
  · intro envs
    exact (part001_foldl_invariant envs ServerJs.freshRes (fun _ => rfl) (by decide)).2

/-- Helper: looking the written key up in the mapped-update branch of
writeFile finds the new data, provided some entry carried the key. -/
theorem lookup_map_write (k v : String) :
    ∀ m : ServerJs.VFiles, (m.find? (fun p => p.1 = k)).isSome →
      ServerJs.lookupKey (m.map (fun p => if p.1 = k then (k, v) else p)) k = some v := by
  intro m
  induction m with
  | nil => intro h; simp [List.find?] at h
  | cons p ps ih =>
    intro h
    by_cases hp : p.1 = k
    · simp [ServerJs.lookupKey, hp, List.find?_cons_of_pos]
    · have hfind : ((p :: ps).find? (fun p => p.1 = k)) = ps.find? (fun p => p.1 = k) :=
        List.find?_cons_of_neg _ (by simpa using hp)
      rw [hfind] at h
      simp only [List.map_cons, if_neg hp]
      unfold ServerJs.lookupKey
      rw [List.find?_cons_of_neg _ (by simpa using hp)]
      exact ih h

/-- Helper: looking the written key up after the append branch of writeFile
finds the new data. -/
theorem lookup_append_write (k v : String) :
    ∀ m : ServerJs.VFiles, (m.find? (fun p => p.1 = k)) = none →
      ServerJs.lookupKey (m ++ [(k, v)]) k = some v := by
  intro m h
  unfold ServerJs.lookupKey
  rw [List.find?_append, h]
  simp [List.find?_cons_of_pos]

/-- Helper: after writeFile, the written key reads back the written data at
the raw-lookup level. -/
theorem lookup_write_self (m : ServerJs.VFiles) (k v : String) :
    ServerJs.lookupKey (ServerJs.writeFile m k v) k = some v := by
  unfold ServerJs.writeFile
  by_cases hf : (m.find? (fun p => p.1 = k)).isSome
  · rw [if_pos hf]
    exact lookup_map_write k v m hf
  · rw [if_neg hf]
    exact lookup_append_write k v m (Option.not_isSome_iff_eq_none.mp hf)

/-- Helper: after removeFile, the removed key has no raw entry. -/
theorem lookup_remove_self (m : ServerJs.VFiles) (k : String) :
    ServerJs.lookupKey (ServerJs.removeFile m k) k = none := by
  unfold ServerJs.lookupKey ServerJs.removeFile
  rw [Option.map_eq_none']
  rw [List.find?_eq_none]
  intro p hp
  have := List.of_mem_filter hp
  simp only [decide_eq_true_eq] at this ⊢
  exact this

/-- C7 counterexample: the adapter's read applies a JavaScript truthiness
test to the stored blob, so writing the empty blob and reading it back
yields absent rather than the blob: the round-trip law fails for falsy
values. -/
theorem C7_claim_counterexample :
    ServerJs.readFile (ServerJs.writeFile [] "creds.json" "") "creds.json" = none ∧
    ¬ (∀ (m : ServerJs.VFiles) (k v : String),
        ServerJs.readFile (ServerJs.writeFile m k v) k = some v) := by
  constructor
  · decide
  · intro h
    exact absurd (h [] "creds.json" "") (by decide)

/-- C7 amended: for every non-empty (truthy) value the round-trip law
holds; a removed key reads back absent; removal is idempotent; and removing
an absent key succeeds, leaving the map unchanged. -/
theorem C7_adapter_contract (m : ServerJs.VFiles) (k v : String) (hv : v ≠ "") :
    ServerJs.readFile (ServerJs.writeFile m k v) k = some v ∧
    ServerJs.readFile (ServerJs.removeFile m k) k = none ∧
    ServerJs.removeFile (ServerJs.removeFile m k) k = ServerJs.removeFile m k ∧
    (ServerJs.lookupKey m k = none → ServerJs.removeFile m k = m) := by
  refine ⟨?_, ?_, ?_, ?_⟩
  · unfold ServerJs.readFile
    rw [lookup_write_self]
    simp [ServerJs.truthyStr, hv]
  · unfold ServerJs.readFile
    rw [lookup_remove_self]
  · unfold ServerJs.removeFile
    rw [List.filter_filter]
    congr 1
    funext p
    simp
  · intro hnone
    unfold ServerJs.removeFile
    unfold ServerJs.lookupKey at hnone
    rw [Option.map_eq_none', List.find?_eq_none] at hnone
    rw [List.filter_eq_self]
    intro p hp
    have := hnone p hp
    simpa using this

/-- C7 witness: the amended contract evaluated at a concrete map, key and
non-empty value. -/
theorem C7_adapter_contract_witness :
    ServerJs.readFile (ServerJs.writeFile [("key-1.json", "b2")] "creds.json" "b1")
      "creds.json" = some "b1" ∧
    ServerJs.readFile (ServerJs.removeFile [("key-1.json", "b2")] "creds.json")
      "creds.json" = none :=
  ⟨(C7_adapter_contract [("key-1.json", "b2")] "creds.json" "b1" (by decide)).1,
    (C7_adapter_contract [("key-1.json", "b2")] "creds.json" "b1" (by decide)).2.1⟩

/-- Helper: the mutex discipline invariant — the guard-holding construction
phase has at most one instance, and none at all while the mutex is free. -/
theorem flow_guard_invariant (s : Flow.SysState) (h : Flow.Reachable s) :
    s.guardCritical ≤ 1 ∧ (s.mutexHeld = false → s.guardCritical = 0) := by
  induction h with
  | start => simp [Flow.startState]
  | step hr hstep ih =>
    cases hstep <;> simp_all

/-- Helper: the two-instances state is reachable: request one arrives,
acquires the guard, its connector returns (releasing the guard while the
instance awaits its link), then request two arrives and acquires the
now-free guard. -/
theorem flow_twoActive_reachable : Flow.Reachable Flow.twoActiveState := by
  have h0 := Flow.Reachable.start
  have h1 := Flow.Reachable.step h0 (Flow.Step.arrive Flow.startState)
  have h2 := Flow.Reachable.step h1 (Flow.Step.acquire _ rfl (by decide))
  have h3 := Flow.Reachable.step h2 (Flow.Step.connectorReturn _ (by decide))
  have h4 := Flow.Reachable.step h3 (Flow.Step.arrive _)
  have h5 := Flow.Reachable.step h4 (Flow.Step.acquire _ rfl (by decide))
  exact h5

/-- C1 counterexample: the system reaches a state with two instances inside
the Initializing-through-Linked window — the guard is released when the
connector returns, before link and cleanup, so a second request constructs
while the first still awaits its link; hence the claimed mutual exclusion
over construction-through-cleanup is false. -/
theorem C1_claim_counterexample :
    Flow.Reachable Flow.twoActiveState ∧
    Flow.inCritical Flow.twoActiveState = 2 ∧
    ¬ (∀ s : Flow.SysState, Flow.Reachable s → Flow.inCritical s ≤ 1) := by
  refine ⟨flow_twoActive_reachable, by decide, ?_⟩
  intro h
  have h1 := h Flow.twoActiveState flow_twoActive_reachable
  have h2 : Flow.inCritical Flow.twoActiveState = 2 := by decide
  omega

/-- C1 amended: the Single-Flight Guard serializes only the guarded portion
of the flow: in every reachable state at most one /pair-spawned connector
invocation is between guard acquisition and release.  It does not cover
construction through cleanup — the guard is released when the connector
returns, before the link, upload and cleanup phases, and the reconnection
path re-invokes the connector without the guard — so two instances can sit
in Initializing-through-Linked at once. -/
theorem C1_guard_single_flight (s : Flow.SysState) (h : Flow.Reachable s) :
    s.guardCritical ≤ 1 :=
  (flow_guard_invariant s h).1

/-- C1 witness: the amended bound evaluated at the concrete reachable
two-instances state, whose guarded-construction count is one. -/
theorem C1_guard_single_flight_witness :
    Flow.twoActiveState.guardCritical = 1 ∧ Flow.twoActiveState.guardCritical ≤ 1 :=
  ⟨by decide, C1_guard_single_flight Flow.twoActiveState flow_twoActive_reachable⟩

/-- Helper: when every file succeeds at both destinations, the src/server.js
upload loop attempts every file and reports no error. -/
theorem uploadFiles_allOk (env : ServerJs.UploadEnv) (sid : String) :
    ∀ (files : List (String × String)) (st : ServerJs.LoopState),
      (∀ g ∈ files, env.vercelOk g.1 = true ∧ env.supabaseErr g.1 = none) →
      (ServerJs.uploadFiles env sid files st).2 = none ∧
      (ServerJs.uploadFiles env sid files st).1.attempted
        = st.attempted ++ files.map Prod.fst := by
  intro files
  induction files with
  | nil => intro st _; simp [ServerJs.uploadFiles]
  | cons f rest ih =>
    intro st h
    rcases f with ⟨file, content⟩
    obtain ⟨hv, hs⟩ := h (file, content) (by simp)
    simp only at hv hs
    have hrest : ∀ g ∈ rest, env.vercelOk g.1 = true ∧ env.supabaseErr g.1 = none :=
      fun g hg => h g (by simp [hg])
    unfold ServerJs.uploadFiles
    simp only [hv, hs, not_true_eq_false, if_neg, ite_false, if_false]
    constructor
    · exact (ih _ hrest).1
    · rw [(ih _ hrest).2]
      simp

/-- Helper: a file whose bucket upload returns an error aborts the
src/server.js upload loop: the files before it and the failing file itself
are attempted, the files after it never are, and the single error is what
the loop reports. -/
theorem uploadFiles_abort (env : ServerJs.UploadEnv) (sid : String)
    (file content e : String) (hv : env.vercelOk file = true)
    (hf : env.supabaseErr file = some e) :
    ∀ (pre : List (String × String)) (rest : List (String × String))
      (st : ServerJs.LoopState),
      (∀ g ∈ pre, env.vercelOk g.1 = true ∧ env.supabaseErr g.1 = none) →
      (ServerJs.uploadFiles env sid (pre ++ (file, content) :: rest) st).2 = some e ∧
      (ServerJs.uploadFiles env sid (pre ++ (file, content) :: rest) st).1.attempted
        = st.attempted ++ pre.map Prod.fst ++ [file] := by
  intro pre
  induction pre with
  | nil =>
    intro rest st _
    simp [ServerJs.uploadFiles, hv, hf]
  | cons g pres ih =>
    intro rest st h
    rcases g with ⟨gf, gc⟩
    obtain ⟨hgv, hgs⟩ := h (gf, gc) (by simp)
    simp only at hgv hgs
    have hrest : ∀ q ∈ pres, env.vercelOk q.1 = true ∧ env.supabaseErr q.1 = none :=
      fun q hq => h q (by simp [hq])
    simp only [List.cons_append]
    unfold ServerJs.uploadFiles
    simp only [hgv, hgs, not_true_eq_false, ite_false, if_false]
    constructor
    · exact (ih rest _ hrest).1
    · rw [(ih rest _ hrest).2]
      simp

/-- Helper: the part_001 upload loop attempts every file, whatever the
per-file outcomes are. -/
theorem uploadLoop001_attempted (env : String → Option String) (sid : String) :
    ∀ (files : List (String × String)) (run : Part001.UploadRun),
      (Part001.uploadLoop001 env sid files run).attempted
        = run.attempted ++ files.map Prod.fst := by
  intro files
  induction files with
  | nil => intro run; simp [Part001.uploadLoop001]
  | cons f rest ih =>
    intro run
    rcases f with ⟨file, content⟩
    unfold Part001.uploadLoop001
    cases henv : env file <;> simp only [henv] <;> rw [ih] <;> simp

/-- C4 counterexample: with two stored keys whose first bucket upload
returns an error, the src/server.js upload loop attempts only the first
key — the failure prevents the remaining key from being attempted — so the
claimed per-key independence is false. -/
theorem C4_claim_counterexample :
    (ServerJs.uploadFiles
        ⟨fun _ => true, fun f => if f = "creds.json" then some "denied" else none⟩
        "1700000000000" [("creds.json", "b1"), ("key-1.json", "b2")]
        ⟨[], fun _ => none, fun _ => none⟩).1.attempted = ["creds.json"] ∧
    ¬ (∀ (env : ServerJs.UploadEnv) (sid : String) (files : List (String × String))
          (st : ServerJs.LoopState),
        (ServerJs.uploadFiles env sid files st).1.attempted
          = st.attempted ++ files.map Prod.fst) := by
  constructor
  · rfl
  · intro h
    have h2 := h ⟨fun _ => true, fun f => if f = "creds.json" then some "denied" else none⟩
      "1700000000000" [("creds.json", "b1"), ("key-1.json", "b2")]
      ⟨[], fun _ => none, fun _ => none⟩
    have h3 : (ServerJs.uploadFiles
        ⟨fun _ => true, fun f => if f = "creds.json" then some "denied" else none⟩
        "1700000000000" [("creds.json", "b1"), ("key-1.json", "b2")]
        ⟨[], fun _ => none, fun _ => none⟩).1.attempted = ["creds.json"] := rfl
    rw [h3] at h2
    exact absurd h2 (by decide)

/-- C4 amended: in the src/server.js pipeline a failing key aborts the
loop — keys before it are attempted, keys after it are not, and the single
error propagates instead of an aggregate naming the failed keys; the
part_001 variant attempts every key independently of failures, but
surfaces no aggregate failure either: it returns the minted session id no
matter how many uploads failed. -/
theorem C4_upload_abort_behavior
    (env : ServerJs.UploadEnv) (sid : String) (pre : List (String × String))
    (file content e : String) (rest : List (String × String)) (st : ServerJs.LoopState)
    (hpre : ∀ g ∈ pre, env.vercelOk g.1 = true ∧ env.supabaseErr g.1 = none)
    (hv : env.vercelOk file = true) (hf : env.supabaseErr file = some e)
    (env1 : String → Option String) (sid1 : String) (files1 : List (String × String))
    (bucket : BlobStore) (hne : files1 ≠ []) :
    ((ServerJs.uploadFiles env sid (pre ++ (file, content) :: rest) st).2 = some e ∧
      (ServerJs.uploadFiles env sid (pre ++ (file, content) :: rest) st).1.attempted
        = st.attempted ++ pre.map Prod.fst ++ [file]) ∧
    ((Part001.uploadSession001 true env1 sid1 files1 bucket).1 = some sid1 ∧
      (Part001.uploadSession001 true env1 sid1 files1 bucket).2.attempted
        = files1.map Prod.fst) := by
  refine ⟨uploadFiles_abort env sid file content e hv hf pre rest st hpre, ?_, ?_⟩
  · simp [Part001.uploadSession001, hne]
  · simp [Part001.uploadSession001, hne, uploadLoop001_attempted]

/-- C4 witness: the amended behavior evaluated at two concrete keys whose
first upload fails at the bucket. -/
theorem C4_upload_abort_behavior_witness :
    (ServerJs.uploadFiles
        ⟨fun _ => true, fun f => if f = "creds.json" then some "denied" else none⟩
        "1700000000000" [("creds.json", "b1"), ("key-1.json", "b2")]
        ⟨[], fun _ => none, fun _ => none⟩).2 = some "denied" ∧
    (Part001.uploadSession001 true (fun _ => some "denied") "abcd"
        [("creds.json", "b1"), ("key-1.json", "b2")] (fun _ => none)).1 = some "abcd" := by
  have h := C4_upload_abort_behavior
    ⟨fun _ => true, fun f => if f = "creds.json" then some "denied" else none⟩
    "1700000000000" [] "creds.json" "b1" "denied" [("key-1.json", "b2")]
    ⟨[], fun _ => none, fun _ => none⟩ (by simp) (by decide) (by decide)
    (fun _ => some "denied") "abcd" [("creds.json", "b1"), ("key-1.json", "b2")]
    (fun _ => none) (by decide)
  exact ⟨by simpa using h.1.1, h.2.1⟩

/-- Helper: string append acts as list append on the character data. -/
theorem strData_append (a b : String) : (a ++ b).data = a.data ++ b.data := by
  cases a; cases b; rfl

/-- Helper: archive paths sharing the session-id prefix are injective in
the key. -/
theorem pathInj (sid a b : String) (h : sid ++ "/" ++ a = sid ++ "/" ++ b) : a = b := by
  have h2 : (sid ++ "/").data ++ a.data = (sid ++ "/").data ++ b.data := by
    rw [← strData_append, ← strData_append, h]
  have h3 : a.data = b.data := List.append_cancel_left h2
  cases a; cases b; exact congrArg String.mk h3

/-- Helper: when every put succeeds, the uploadSessionToBlob loop returns
ok, leaves paths outside the written set untouched, and (for distinct keys)
stores every entry's content under sessionId slash key. -/
theorem uploadEntriesGo_ok (env : ServerJs.BlobPutEnv) (sid : String) :
    ∀ (files : List (String × String)) (store : BlobStore) (urls : List String),
      (∀ g ∈ files, env.putOk (sid ++ "/" ++ g.1) = true) →
      ∃ store2 urls2,
        ServerJs.uploadEntriesGo env sid files store urls = Except.ok (store2, urls2) ∧
        (∀ p, (∀ g ∈ files, p ≠ sid ++ "/" ++ g.1) → store2 p = store p) ∧
        ((files.map Prod.fst).Nodup →
          ∀ g ∈ files, store2 (sid ++ "/" ++ g.1) = some g.2) := by
  intro files
  induction files with
  | nil =>
    intro store urls _
    exact ⟨store, urls, rfl, fun p _ => rfl, fun _ g hg => absurd hg (List.not_mem_nil g)⟩
  | cons f rest ih =>
    intro store urls h
    rcases f with ⟨k, v⟩
    have hk := h (k, v) (by simp)
    simp only at hk
    obtain ⟨store2, urls2, heq, hpres, hmem⟩ :=
      ih (putObject store (sid ++ "/" ++ k) v) (urls ++ [sid ++ "/" ++ k])
        (fun g hg => h g (by simp [hg]))
    refine ⟨store2, urls2, ?_, ?_, ?_⟩
    · unfold ServerJs.uploadEntriesGo
      rw [if_pos hk]
      exact heq
    · intro p hp
      rw [hpres p (fun g hg => hp g (by simp [hg]))]
      unfold putObject
      rw [if_neg (hp (k, v) (by simp))]
    · intro hnd g hg
      rw [List.map_cons] at hnd
      have hnd2 := List.nodup_cons.mp hnd
      rcases List.mem_cons.mp hg with hgk | hgrest
      · subst hgk
        rw [hpres _ ?_]
        · unfold putObject
          rw [if_pos rfl]
        · intro q hq heqpath
          have hkq : k = q.1 := pathInj sid k q.1 heqpath
          have hqm : q.1 ∈ rest.map Prod.fst := List.mem_map_of_mem Prod.fst hq
          rw [← hkq] at hqm
          exact hnd2.1 hqm
      · exact hmem hnd2.2 g hgrest

/-- Helper: when no bucket upload returns an error, the part_000
uploadSession loop returns ok, leaves other paths untouched, and (for
distinct keys) stores every entry's content under sessionId slash key. -/
theorem uploadSessionGo_ok (env : String → Option String) (sid : String) :
    ∀ (files : List (String × String)) (bucket : BlobStore),
      (∀ g ∈ files, env g.1 = none) →
      ∃ b2, Part000.uploadSessionGo env sid files bucket = Except.ok b2 ∧
        (∀ p, (∀ g ∈ files, p ≠ sid ++ "/" ++ g.1) → b2 p = bucket p) ∧
        ((files.map Prod.fst).Nodup →
          ∀ g ∈ files, b2 (sid ++ "/" ++ g.1) = some g.2) := by
  intro files
  induction files with
  | nil =>
    intro bucket _
    exact ⟨bucket, rfl, fun p _ => rfl, fun _ g hg => absurd hg (List.not_mem_nil g)⟩
  | cons f rest ih =>
    intro bucket h
    rcases f with ⟨k, v⟩
    have hk := h (k, v) (by simp)
    simp only at hk
    obtain ⟨b2, heq, hpres, hmem⟩ :=
      ih (putObject bucket (sid ++ "/" ++ k) v) (fun g hg => h g (by simp [hg]))
    refine ⟨b2, ?_, ?_, ?_⟩
    · unfold Part000.uploadSessionGo
      rw [hk]
      exact heq
    · intro p hp
      rw [hpres p (fun g hg => hp g (by simp [hg]))]
      unfold putObject
      rw [if_neg (hp (k, v) (by simp))]
    · intro hnd g hg
      rw [List.map_cons] at hnd
      have hnd2 := List.nodup_cons.mp hnd
      rcases List.mem_cons.mp hg with hgk | hgrest
      · subst hgk
        rw [hpres _ ?_]
        · unfold putObject
          rw [if_pos rfl]
        · intro q hq heqpath
          have hkq : k = q.1 := pathInj sid k q.1 heqpath
          have hqm : q.1 ∈ rest.map Prod.fst := List.mem_map_of_mem Prod.fst hq
          rw [← hkq] at hqm
          exact hnd2.1 hqm
      · exact hmem hnd2.2 g hgrest

/-- C5: archiving mints a fresh session id, writes every adapter key's blob
under sessionId slash key in the durable archive, and returns the same
minted id — shown for the blob pipeline of src/server.js
(uploadSessionToBlob, timestamp-minted id) and the bucket pipeline of
part_000 (uploadSession, randomly minted id), assuming every destination
write succeeds and the adapter keys are distinct. -/
theorem C5_archive_roundtrip
    (env : ServerJs.BlobPutEnv) (now : Nat) (files : List (String × String))
    (store : BlobStore)
    (hok : ∀ g ∈ files, env.putOk (toString now ++ "/" ++ g.1) = true)
    (hnd : (files.map Prod.fst).Nodup)
    (envS : String → Option String) (sid : String) (filesS : List (String × String))
    (bucket : BlobStore)
    (hokS : ∀ g ∈ filesS, envS g.1 = none) (hndS : (filesS.map Prod.fst).Nodup) :
    (∃ store2 urls,
        ServerJs.uploadSessionToBlob env now files store
          = Except.ok (store2, ⟨toString now, urls⟩) ∧
        ∀ g ∈ files, store2 (toString now ++ "/" ++ g.1) = some g.2) ∧
    (∃ b2, Part000.uploadSession envS sid filesS bucket = Except.ok (b2, sid) ∧
        ∀ g ∈ filesS, b2 (sid ++ "/" ++ g.1) = some g.2) := by
  constructor
  · obtain ⟨store2, urls2, heq, hpres, hmem⟩ :=
      uploadEntriesGo_ok env (toString now) files store [] hok
    refine ⟨store2, urls2, ?_, hmem hnd⟩
    simp only [ServerJs.uploadSessionToBlob, heq]
  · obtain ⟨b2, heq, hpres, hmem⟩ := uploadSessionGo_ok envS sid filesS bucket hokS
    refine ⟨b2, ?_, hmem hndS⟩
    simp only [Part000.uploadSession, heq]

/-- C5 witness: the spec's example — the adapter holds creds.json and
key-1.json; archiving under the minted id stores both blobs under the id
and returns it. -/
theorem C5_archive_roundtrip_witness :
    (match ServerJs.uploadSessionToBlob ⟨fun _ => true⟩ 17
        [("creds.json", "b1"), ("key-1.json", "b2")] (fun _ => none) with
     | Except.ok x =>
         x.2.sessionId = "17" ∧ x.1 ("17" ++ "/" ++ "creds.json") = some "b1" ∧
           x.1 ("17" ++ "/" ++ "key-1.json") = some "b2"
     | Except.error _ => False) := by
  obtain ⟨⟨store2, urls, heq, hmem⟩, -⟩ :=
    C5_archive_roundtrip ⟨fun _ => true⟩ 17 [("creds.json", "b1"), ("key-1.json", "b2")]
      (fun _ => none) (fun g _ => rfl) (by decide)
      (fun _ => none) "x" [] (fun _ => none) (fun g hg => absurd hg (List.not_mem_nil g))
      (by decide)
  rw [heq]
  exact ⟨rfl, hmem ("creds.json", "b1") (by simp), hmem ("key-1.json", "b2") (by simp)⟩

/-- Helper: the spec-side chunking peels off the first group of four. -/
theorem specChunks_cons (l : List Char) (h : l ≠ []) :
    Spec.specChunks l = l.take 4 :: Spec.specChunks (l.drop 4) := by
  unfold Spec.specChunks
  have hlen : (l.drop 4).length = l.length - 4 := List.length_drop 4 l
  have hl : 1 ≤ l.length := List.length_pos.mpr h
  have hcount : (l.length + 3) / 4 = ((l.length - 4) + 3) / 4 + 1 := by omega
  rw [hcount, hlen, List.range_succ_eq_map]
  simp only [List.map_cons, List.map_map, Nat.mul_zero, List.drop_zero]
  refine congrArg₂ List.cons rfl ?_
  apply List.map_congr_left
  intro i hi
  show (l.drop (4 * (i + 1))).take 4 = ((l.drop 4).drop (4 * i)).take 4
  rw [List.drop_drop]
  congr 2
  omega

/-- Helper: the spec-side chunking of a non-empty list is non-empty. -/
theorem specChunks_ne_nil (l : List Char) (h : l ≠ []) : Spec.specChunks l ≠ [] := by
  rw [specChunks_cons l h]
  simp

/-- Helper: on a non-empty list of dot-matchable characters, the global
match greedily takes the first four characters as one group and continues
after them. -/
theorem matchGo_step (l : List Char) (hdot : ∀ c ∈ l, ServerJs.jsDot c = true) (h : l ≠ []) :
    ServerJs.matchGo [] l = l.take 4 :: ServerJs.matchGo [] (l.drop 4) := by
  rcases l with _ | ⟨a, _ | ⟨b, _ | ⟨c, _ | ⟨d, rest⟩⟩⟩⟩
  · exact absurd rfl h
  · have ha := hdot a (by simp)
    simp [ServerJs.matchGo, ha]
  · have ha := hdot a (by simp)
    have hb := hdot b (by simp)
    simp [ServerJs.matchGo, ha, hb]
  · have ha := hdot a (by simp)
    have hb := hdot b (by simp)
    have hc := hdot c (by simp)
    simp [ServerJs.matchGo, ha, hb, hc]
  · have ha := hdot a (by simp)
    have hb := hdot b (by simp)
    have hc := hdot c (by simp)
    have hd := hdot d (by simp)
    simp [ServerJs.matchGo, ha, hb, hc, hd]

/-- Helper: on lists of dot-matchable characters the source's global match
and the spec's groups-of-four chunking agree. -/
theorem chunks_agree (n : Nat) :
    ∀ l : List Char, l.length ≤ n → (∀ c ∈ l, ServerJs.jsDot c = true) →
      ServerJs.matchChunks l = Spec.specChunks l := by
  induction n with
  | zero =>
    intro l hl _
    have hnil : l = [] := List.length_eq_zero.mp (Nat.le_zero.mp hl)
    subst hnil
    rfl
  | succ n ih =>
    intro l hl hdot
    by_cases h : l = []
    · subst h; rfl
    · unfold ServerJs.matchChunks
      rw [matchGo_step l hdot h, specChunks_cons l h]
      congr 1
      have hdrop := ih (l.drop 4)
        (by have := List.length_drop 4 l
            have := List.length_pos.mpr h
            omega)
        (fun c hc => hdot c (List.mem_of_mem_drop hc))
      simpa [ServerJs.matchChunks] using hdrop

/-- C9 counterexample: the empty raw code (and a raw code of line
terminators only) yields a null match, so the formatted result is null
rather than the spec-side empty join: the claim fails on such strings. -/
theorem C9_claim_counterexample :
    ServerJs.formatCode "" = none ∧
    ServerJs.formatCode (String.mk ['\n', '\n']) = none ∧
    ¬ (∀ s : String, ServerJs.formatCode s = some (Spec.specFormatCode s)) := by
  refine ⟨rfl, rfl, ?_⟩
  intro h
  exact absurd (h "") (by decide)

/-- C9 amended: for every non-empty raw code made of characters the
regular-expression dot can match (no line terminators — every actual
pairing code qualifies), the formatted result is the raw code split into
groups of four characters joined by the separator. -/
theorem C9_code_formatting (s : String) (hne : s ≠ "")
    (hdot : ∀ c ∈ s.data, ServerJs.jsDot c = true) :
    ServerJs.formatCode s = some (Spec.specFormatCode s) := by
  have hd : s.data ≠ [] := by
    intro hnil
    apply hne
    cases s with
    | mk d => simp only at hnil; subst hnil; rfl
  have hchunks : ServerJs.matchChunks s.data = Spec.specChunks s.data :=
    chunks_agree s.data.length s.data le_rfl hdot
  unfold ServerJs.formatCode Spec.specFormatCode
  rw [hchunks]
  cases hsc : Spec.specChunks s.data with
  | nil => exact absurd hsc (specChunks_ne_nil s.data hd)
  | cons g gs => simp

/-- C9 witness: the spec's example — the raw code ABCD1234 is returned as
ABCD-1234. -/
theorem C9_code_formatting_witness :
    ServerJs.formatCode "ABCD1234" = some "ABCD-1234" := by
  rw [C9_code_formatting "ABCD1234" (by decide) (by decide)]
  decide

end KingXer
